import Mathlib

/-!
A shallow embedding of the two registry-generator scripts of the
`PortableSheep/delve-plugins` repository:

* `.github/scripts/generate-registry.py`   (namespace `GR`)
* `.github/scripts/simple-registry-generator.py` (namespace `SR`)

The filesystem that the scripts walk is modelled as explicit data
(`RootEntry`, `VersionDir`); file contents are lists of bytes.  The SHA-256
primitive of Python's `hashlib` is abstracted as a state machine `Sha256 σ`
(init / update / hexdigest); the repository's own checksum logic — chunked
reading in 4096-byte blocks and the `sha256:<digest>` tagging — is embedded
faithfully.  Print statements of the scripts are modelled as `LogLine`
values; crashes (unhandled exceptions) are modelled with `Except String`.
-/

set_option autoImplicit false

namespace DelveRegistry

variable {σ : Type} {α : Type} {β : Type}

/-- Abstract interface of Python's `hashlib.sha256()` object: an initial
state, an `update` consuming one chunk of bytes, and `hexdigest` rendering
the state. The compression function itself is not repository code and is
kept abstract. -/
structure Sha256 (σ : Type) where
  init : σ
  update : σ → List Nat → σ
  hexdigest : σ → String

/-- Splits a byte list into successive chunks of (at most) 4096 bytes,
mirroring `iter(lambda: f.read(4096), b"")`: an empty file yields no
chunks. -/
def chunksOf4096 (l : List Nat) : List (List Nat) :=
  if h : l = [] then []
  else l.take 4096 :: chunksOf4096 (l.drop 4096)
termination_by l.length
decreasing_by
  simp only [List.length_drop]
  exact Nat.sub_lt (List.length_pos.mpr h) (by norm_num)

/-- `calculate_checksum` (identical in both scripts): feed the file's bytes
to the hash in 4096-byte chunks and render the hex digest. -/
def calculate_checksum (h : Sha256 σ) (bytes : List Nat) : String :=
  h.hexdigest ((chunksOf4096 bytes).foldl h.update h.init)

/-- Abstract rendering of
`datetime.fromtimestamp(mtime).isoformat() + "Z"`: only its dependence on
the directory's mtime is modelled, not the textual format of the Python
standard library. -/
def pyIsoTimestamp (mtime : Nat) : String :=
  toString mtime ++ "Z"

/-- Python `str.startswith`, via the underlying character lists. -/
def pyStartsWith (s p : String) : Bool :=
  s.data.take p.data.length == p.data

/-- Fuel-driven single-pattern replacement on character lists
(left-to-right, non-overlapping), the semantics of Python's
`str.replace` / the `str.format` substitutions used by the scripts. The
fuel is an upper bound on the number of characters inspected. -/
def replaceFuel (pat repl : List Char) : Nat → List Char → List Char
  | 0, l => l
  | _ + 1, [] => []
  | fuel + 1, c :: rest =>
    if pat ≠ [] ∧ (c :: rest).take pat.length == pat then
      repl ++ replaceFuel pat repl fuel ((c :: rest).drop pat.length)
    else
      c :: replaceFuel pat repl fuel rest

/-- Python `str.replace` on strings. -/
def pyReplace (s pat repl : String) : String :=
  ⟨replaceFuel pat.data repl.data s.data.length s.data⟩

/-- Helper for `pySplitSlash`: accumulates the current field (reversed). -/
def splitSlashAux : List Char → List Char → List String
  | [], cur => [⟨cur.reverse⟩]
  | c :: rest, cur =>
    if c = '/' then ⟨cur.reverse⟩ :: splitSlashAux rest []
    else splitSlashAux rest (c :: cur)

/-- Python `platform.split("/")`. -/
def pySplitSlash (s : String) : List String :=
  splitSlashAux s.data []

/-- Lexicographic (code-point) comparison of character lists: the order
Python uses when comparing version strings. -/
def charListLe : List Char → List Char → Bool
  | [], _ => true
  | _ :: _, [] => false
  | a :: as, b :: bs =>
    if a.toNat < b.toNat then true
    else if b.toNat < a.toNat then false
    else charListLe as bs

/-- Python string `<=` (lexicographic by code point). -/
def pyStrLe (a b : String) : Bool :=
  charListLe a.data b.data

/-- Python `dict` assignment `d[k] = v` on an insertion-ordered
association list: an existing key keeps its position and gets the new
value, a new key is appended. -/
def dictInsert (k : String) (v : β) : List (String × β) → List (String × β)
  | [] => [(k, v)]
  | (k', v') :: rest =>
    if k' = k then (k, v) :: rest else (k', v') :: dictInsert k v rest

/-- One line printed by a generator script while scanning (the messages of
`simple-registry-generator.py`; `generate-registry.py`'s scanning functions
print nothing). -/
inductive LogLine where
  | processing (plugin : String)
  | noBinaries (version : String)
  | foundVersion (version : String) (platforms : Nat)
deriving DecidableEq, Repr

/-- One entry of a `releases/` directory: its name (treated as the version
string), whether it is a directory, its mtime, and the files it contains
(filename, content bytes). -/
structure VersionDir where
  name : String
  isDir : Bool
  mtime : Nat
  files : List (String × List Nat)
deriving DecidableEq, Repr

/-- The `frontend` section of a `plugin.json` manifest (an optional
`entry` filename). -/
structure FrontendDecl where
  entry : Option String
deriving DecidableEq, Repr

/-- One entry of the working directory scanned by the generators: its
name, whether it is a directory, the `plugin.json` inside it (raw bytes
plus its parsed form, when the file exists and parses), and the contents
of its `releases/` directory (`none` when no such directory exists).
`α` is the variant-specific parsed-manifest type. -/
structure RootEntry (α : Type) where
  name : String
  isDir : Bool
  pluginJson : Option (List Nat × α)
  releases : Option (List VersionDir)
deriving DecidableEq, Repr

/-- Reading `./<id>/plugin.json` (the `calculate_checksum(Path('.') /
plugin_id / 'plugin.json')` call): `none` models the unhandled `open`
failure when the directory or file is missing. -/
def readPluginJson (entries : List (RootEntry α)) (id : String) : Option (List Nat) :=
  match entries.find? (fun e => e.isDir && e.name == id) with
  | some e => e.pluginJson.map Prod.fst
  | none => none

/-- One platform asset of a release: relative URL, tagged checksum, byte
size. -/
structure Asset where
  url : String
  checksum : String
  size : Nat
deriving DecidableEq, Repr

/-- The `frontend` block of an emitted version record. -/
structure FrontendBlock where
  entry : String
  checksum : String
deriving DecidableEq, Repr

/-- The `plugin_metadata` block of an emitted version record. -/
structure MetaRef where
  url : String
  checksum : String
deriving DecidableEq, Repr

/-- One emitted release of one plugin. -/
structure VersionRecord where
  version : String
  released : String
  compatibility : List String
  assets : List (String × Asset)
  frontend : Option FrontendBlock
  plugin_metadata : MetaRef
deriving DecidableEq, Repr

/-- Stable descending insertion by Python string comparison of the
`version` field: inserts `a` before the first element whose version is
`<=` that of `a`. -/
def orderedInsertDesc (a : VersionRecord) : List VersionRecord → List VersionRecord
  | [] => [a]
  | b :: l => if pyStrLe b.version a.version then a :: b :: l else b :: orderedInsertDesc a l

/-- `releases.sort(key=lambda x: x["version"], reverse=True)`: the stable
descending sort (by plain string comparison) both scripts apply to the
version records of one plugin. -/
def sortVersionsDesc : List VersionRecord → List VersionRecord
  | [] => []
  | a :: l => orderedInsertDesc a (sortVersionsDesc l)

/-- The fixed `registry:` header of the output document. -/
structure RegistryMeta where
  name : String
  description : String
  maintainer : String
  url : String
  api_version : String
  last_updated : String
deriving DecidableEq, Repr

/-- One release channel definition. -/
structure ChannelDef where
  description : String
  include_prerelease : Bool
  default : Option Bool
deriving DecidableEq, Repr

/-- One category definition. -/
structure CategoryDef where
  name : String
  description : String
deriving DecidableEq, Repr

/-- The `api:` section (base URL and endpoint templates). -/
structure ApiSection where
  base_url : String
  endpoints : List (String × String)
deriving DecidableEq, Repr

/-- The `stats:` section of the registry document. -/
structure Stats where
  total_plugins : Nat
  total_versions : Nat
  most_popular : List String
deriving DecidableEq, Repr

/-- The whole `registry.yml` document; `P` is the variant's plugin-record
type. -/
structure RegistryDoc (P : Type) where
  registry : RegistryMeta
  plugins : List (String × P)
  channels : List (String × ChannelDef)
  categories : List (String × CategoryDef)
  api : ApiSection
  stats : Stats
deriving DecidableEq, Repr

/-- One flattened summary entry of `api/plugins.json`. -/
structure DiscoveryEntry where
  id : String
  name : String
  description : String
  author : String
  category : String
  tags : List String
  latest_version : Option String
  min_delve_version : String
deriving DecidableEq, Repr

/-- The `api/plugins.json` document. -/
structure DiscoveryDoc where
  plugins : List DiscoveryEntry
  total : Nat
  last_updated : String
deriving DecidableEq, Repr

/-- What `generate_api_files` writes: the discovery document and one
detail file `api/plugins/<id>` per plugin (path key, serialized record). -/
structure ApiOutput (P : Type) where
  pluginsJson : DiscoveryDoc
  detailFiles : List (String × P)
deriving DecidableEq, Repr

/-- Everything one script run writes. -/
structure PipelineOut (P : Type) where
  registryYml : RegistryDoc P
  api : ApiOutput P
deriving DecidableEq, Repr

/-- A concrete instantiation of the abstract hash interface used to
evaluate the embedding on closed inputs: the state is the concatenation of
the chunks fed so far and the digest records its length. -/
def listHash : Sha256 (List Nat) where
  init := []
  update := fun s c => s ++ c
  hexdigest := fun s => "h" ++ toString s.length

namespace GR

/-! The `generate-registry.py` variant. -/

/-- The `info` object of `plugin.json` as this script reads it:
`name`/`description`/`author`/`license`/`id` are accessed with `[...]`
(required), the rest with `.get` (optional). -/
structure Info where
  id : String
  name : String
  description : String
  author : String
  license : String
  repository : Option String
  homepage : Option String
  tags : Option (List String)
  category : Option String
deriving DecidableEq, Repr

/-- The `compatibility` object: both fields accessed with `[...]`. -/
structure Compat where
  min_delve_version : String
  supported_versions : List String
deriving DecidableEq, Repr

/-- The `build` object: platform list (strings `os/arch`) and the binary
filename pattern `build.assets.binary`. -/
structure BuildSec where
  platforms : List String
  binary : String
deriving DecidableEq, Repr

/-- The manifest as consumed by `generate-registry.py`. -/
structure Manifest where
  info : Info
  compatibility : Compat
  build : BuildSec
  frontend : Option FrontendDecl
deriving DecidableEq, Repr

/-- One plugin record emitted by `process_plugin`. -/
structure PluginRecord where
  name : String
  description : String
  author : String
  license : String
  repository : Option String
  homepage : Option String
  tags : List String
  category : String
  min_delve_version : String
  versions : List VersionRecord
deriving DecidableEq, Repr

/-- The expected binary filename: the `build.assets.binary` pattern with
`{plugin_name}`/`{os}`/`{arch}` substituted, plus `.exe` for Windows. -/
def binaryName (pd : Manifest) (osName arch : String) : String :=
  let base := pyReplace (pyReplace (pyReplace pd.build.binary "{plugin_name}" pd.info.id) "{os}" osName) "{arch}" arch
  if osName = "windows" then base ++ ".exe" else base

/-- The `for platform in plugin_data["build"]["platforms"]` loop of
`process_release`: splits each platform at `/` (crash if it does not split
in two), checks the expected binary, and records an asset keyed
`os-arch`. -/
def assetsLoop (h : Sha256 σ) (pd : Manifest) (vd : VersionDir) :
    List String → List (String × Asset) → Except String (List (String × Asset))
  | [], assets => .ok assets
  | platform :: rest, assets =>
    match pySplitSlash platform with
    | [osName, arch] =>
      let bn := binaryName pd osName arch
      match vd.files.lookup bn with
      | some bytes =>
        assetsLoop h pd vd rest (dictInsert (osName ++ "-" ++ arch)
          { url := pd.info.id ++ "/releases/" ++ vd.name ++ "/" ++ bn
            checksum := "sha256:" ++ calculate_checksum h bytes
            size := bytes.length } assets)
      | none => assetsLoop h pd vd rest assets
    | _ => .error "cannot unpack platform"

/-- The frontend-checksum computation of `process_release`: `none` when no
(nonempty) entry is declared, otherwise the entry name paired with the
file's digest, or the literal `"missing"` when the declared file does not
exist. -/
def frontendChecksum (h : Sha256 σ) (pd : Manifest) (vd : VersionDir) :
    Option (String × String) :=
  match pd.frontend with
  | some fd =>
    match fd.entry with
    | some e =>
      if e = "" then none
      else
        match vd.files.lookup e with
        | some bytes => some (e, calculate_checksum h bytes)
        | none => some (e, "missing")
    | none => none
  | none => none

/-- `process_release`: assembles one version record, or `none` when no
platform binary was found. This function prints nothing, so its log
component is always empty. -/
def process_release (h : Sha256 σ) (entries : List (RootEntry Manifest))
    (vd : VersionDir) (pd : Manifest) :
    Except String (Option VersionRecord × List LogLine) :=
  match assetsLoop h pd vd pd.build.platforms [] with
  | .error e => .error e
  | .ok assets =>
    let fc := frontendChecksum h pd vd
    if assets.isEmpty then .ok (none, [])
    else
      match readPluginJson entries pd.info.id with
      | none => .error "cannot open plugin.json"
      | some metaBytes =>
        .ok (some
          { version := vd.name
            released := pyIsoTimestamp vd.mtime
            compatibility := pd.compatibility.supported_versions
            assets := assets
            frontend :=
              match fc with
              | some (e, c) =>
                if c = "" then none else some { entry := e, checksum := "sha256:" ++ c }
              | none => none
            plugin_metadata :=
              { url := pd.info.id ++ "/plugin.json"
                checksum := "sha256:" ++ calculate_checksum h metaBytes } }, [])

/-- The release loop of `process_plugin`: iterates the entries of
`releases/`, keeps directories only, and collects the non-`None` results
of `process_release`. -/
def versionsLoop (h : Sha256 σ) (entries : List (RootEntry Manifest)) (pd : Manifest) :
    List VersionDir → List VersionRecord → Except String (List VersionRecord × List LogLine)
  | [], acc => .ok (acc, [])
  | vd :: rest, acc =>
    if vd.isDir then
      match process_release h entries vd pd with
      | .error e => .error e
      | .ok (none, _) => versionsLoop h entries pd rest acc
      | .ok (some r, _) => versionsLoop h entries pd rest (acc ++ [r])
    else versionsLoop h entries pd rest acc

/-- `process_plugin`: collects and sorts the plugin's releases and builds
its record (this variant keeps the record even when `versions` is
empty). -/
def process_plugin (h : Sha256 σ) (entries : List (RootEntry Manifest))
    (e : RootEntry Manifest) (pd : Manifest) : Except String PluginRecord :=
  match versionsLoop h entries pd (e.releases.getD []) [] with
  | .error err => .error err
  | .ok (releases, _) =>
    .ok { name := pd.info.name
          description := pd.info.description
          author := pd.info.author
          license := pd.info.license
          repository := pd.info.repository
          homepage := pd.info.homepage
          tags := pd.info.tags.getD []
          category := pd.info.category.getD "utilities"
          min_delve_version := pd.compatibility.min_delve_version
          versions := sortVersionsDesc releases }

/-- The scanning loop of `scan_plugins`: every directory entry other than
`.github` that contains a `plugin.json` is processed and assigned into the
plugins dict. -/
def scanLoop (h : Sha256 σ) (all : List (RootEntry Manifest)) :
    List (RootEntry Manifest) → List (String × PluginRecord) →
    Except String (List (String × PluginRecord))
  | [], acc => .ok acc
  | e :: rest, acc =>
    if e.isDir && e.name != ".github" then
      match e.pluginJson with
      | some (_, pd) =>
        match process_plugin h all e pd with
        | .error err => .error err
        | .ok rec => scanLoop h all rest (dictInsert e.name rec acc)
      | none => scanLoop h all rest acc
    else scanLoop h all rest acc

/-- `scan_plugins` of `generate-registry.py`. -/
def scan_plugins (h : Sha256 σ) (entries : List (RootEntry Manifest)) :
    Except String (List (String × PluginRecord)) :=
  scanLoop h entries entries []

/-- `generate_registry`: the full `registry.yml` document. `now` stands
for `datetime.utcnow().isoformat() + "Z"`. -/
def generate_registry (now : String) (plugins : List (String × PluginRecord)) :
    RegistryDoc PluginRecord where
  registry :=
    { name := "Official Delve Plugin Registry"
      description := "Central registry for Delve plugins"
      maintainer := "portablesheep"
      url := "https://github.com/PortableSheep/delve-registry"
      api_version := "v1"
      last_updated := now }
  plugins := plugins
  channels :=
    [("stable", { description := "Stable, production-ready releases"
                  include_prerelease := false, default := some true }),
     ("beta", { description := "Beta releases for testing"
                include_prerelease := true, default := none }),
     ("development", { description := "Latest development builds"
                       include_prerelease := true, default := none })]
  categories :=
    [("data-tools", { name := "Data Tools"
                      description := "Plugins for data manipulation, formatting, and analysis" }),
     ("development-tools", { name := "Development Tools"
                             description := "Plugins for software development workflows" }),
     ("monitoring", { name := "Monitoring & Analytics"
                      description := "Plugins for monitoring systems and analyzing metrics" }),
     ("utilities", { name := "Utilities"
                     description := "General purpose utility plugins" })]
  api :=
    { base_url := "https://raw.githubusercontent.com/PortableSheep/delve-registry/main"
      endpoints :=
        [("registry_metadata", "/registry.yml"),
         ("plugin_list", "/api/plugins.json"),
         ("plugin_details", "/api/plugins/{plugin_id}"),
         ("download_asset", "/{plugin_id}/releases/{version}/{asset_name}"),
         ("plugin_metadata", "/{plugin_id}/plugin.json")] }
  stats :=
    { total_plugins := plugins.length
      total_versions := (plugins.map (fun p => p.2.versions.length)).sum
      most_popular := plugins.map Prod.fst }

/-- `generate_api_files`: the discovery document plus one detail file per
plugin. `now` stands for `datetime.utcnow().isoformat() + "Z"`. -/
def generate_api_files (now : String) (plugins : List (String × PluginRecord)) :
    ApiOutput PluginRecord where
  pluginsJson :=
    { plugins := plugins.map (fun p =>
        { id := p.1
          name := p.2.name
          description := p.2.description
          author := p.2.author
          category := p.2.category
          tags := p.2.tags
          latest_version :=
            match p.2.versions with
            | [] => none
            | v :: _ => some v.version
          min_delve_version := p.2.min_delve_version })
      total := plugins.length
      last_updated := now }
  detailFiles := plugins

/-- The `main()` pipeline of `generate-registry.py` (scan, then write
`registry.yml` and the API files); `nowR` and `nowA` are the two
`utcnow()` samples. -/
def runPipeline (h : Sha256 σ) (entries : List (RootEntry Manifest))
    (nowR nowA : String) : Except String (PipelineOut PluginRecord) :=
  match scan_plugins h entries with
  | .error e => .error e
  | .ok plugins =>
    .ok { registryYml := generate_registry nowR plugins
          api := generate_api_files nowA plugins }

end GR

namespace SR

/-! The `simple-registry-generator.py` variant. -/

/-- The `info` object as this script reads it: everything but the five
identity fields and `id` is accessed via `.get` with a default. -/
structure Info where
  id : String
  name : String
  description : String
  author : String
  license : String
  repository : Option String
  homepage : Option String
  tags : Option (List String)
  category : Option String
  min_delve_version : Option String
deriving DecidableEq, Repr

/-- The manifest as consumed by `simple-registry-generator.py`: the
top-level `compatibility` value is passed through unchanged (modelled as a
list of version strings, matching the script's default
`['v0.1.0', 'v0.2.0']`); the `frontend` section may be present in the file
but is never read by this script. -/
structure Manifest where
  info : Info
  compatibility : Option (List String)
  frontend : Option FrontendDecl
deriving DecidableEq, Repr

/-- One plugin record emitted by `scan_plugins` (string defaults `''` for
missing `repository`/`homepage`, unlike the other variant). -/
structure PluginRecord where
  name : String
  description : String
  author : String
  license : String
  repository : String
  homepage : String
  tags : List String
  category : String
  min_delve_version : String
  versions : List VersionRecord
deriving DecidableEq, Repr

/-- The hardcoded platform list of `process_version`. -/
def srPlatforms : List String :=
  ["darwin-amd64", "darwin-arm64", "linux-amd64", "linux-arm64", "windows-amd64"]

/-- The `for platform in platforms` loop of `process_version`: conventional
binary name `{plugin_id}-{platform}` (plus `.exe` on `windows-amd64`),
asset recorded when the file exists. -/
def assetsLoop (h : Sha256 σ) (plugin_id : String) (vd : VersionDir) :
    List String → List (String × Asset) → List (String × Asset)
  | [], acc => acc
  | platform :: rest, acc =>
    let bn := plugin_id ++ "-" ++ platform ++ (if platform = "windows-amd64" then ".exe" else "")
    match vd.files.lookup bn with
    | some bytes =>
      assetsLoop h plugin_id vd rest (dictInsert platform
        { url := plugin_id ++ "/releases/" ++ vd.name ++ "/" ++ bn
          checksum := "sha256:" ++ calculate_checksum h bytes
          size := bytes.length } acc)
    | none => assetsLoop h plugin_id vd rest acc

/-- `process_version`: one version record, or `none` (with a printed skip
message) when no binary was found; the frontend block is attached exactly
when the conventional `component.js` exists. -/
def process_version (h : Sha256 σ) (entries : List (RootEntry Manifest))
    (vd : VersionDir) (pd : Manifest) :
    Except String (Option VersionRecord × List LogLine) :=
  let version := vd.name
  let plugin_id := pd.info.id
  let assets := assetsLoop h plugin_id vd srPlatforms []
  if assets.isEmpty then .ok (none, [.noBinaries version])
  else
    let frontend : Option FrontendBlock :=
      match vd.files.lookup "component.js" with
      | some bytes =>
        some { entry := "component.js", checksum := "sha256:" ++ calculate_checksum h bytes }
      | none => none
    match readPluginJson entries plugin_id with
    | none => .error "cannot open plugin.json"
    | some metaBytes =>
      .ok (some
        { version := version
          released := pyIsoTimestamp vd.mtime
          compatibility := pd.compatibility.getD ["v0.1.0", "v0.2.0"]
          assets := assets
          frontend := frontend
          plugin_metadata :=
            { url := plugin_id ++ "/plugin.json"
              checksum := "sha256:" ++ calculate_checksum h metaBytes } },
        [.foundVersion version assets.length])

/-- The release loop of `scan_plugins`: iterates the entries of
`releases/`, keeps directories only, collects non-`None` records and the
printed messages. -/
def versionsLoop (h : Sha256 σ) (entries : List (RootEntry Manifest)) (pd : Manifest) :
    List VersionDir → List VersionRecord → List LogLine →
    Except String (List VersionRecord × List LogLine)
  | [], acc, lgs => .ok (acc, lgs)
  | vd :: rest, acc, lgs =>
    if vd.isDir then
      match process_version h entries vd pd with
      | .error e => .error e
      | .ok (none, lg) => versionsLoop h entries pd rest acc (lgs ++ lg)
      | .ok (some r, lg) => versionsLoop h entries pd rest (acc ++ [r]) (lgs ++ lg)
    else versionsLoop h entries pd rest acc lgs

/-- The scanning loop of `scan_plugins`: skips non-directories and
dot-named entries, silently skips directories without `plugin.json`, and
only keeps plugins whose `versions` list is non-empty. -/
def scanLoop (h : Sha256 σ) (all : List (RootEntry Manifest)) :
    List (RootEntry Manifest) → List (String × PluginRecord) → List LogLine →
    Except String (List (String × PluginRecord) × List LogLine)
  | [], acc, lgs => .ok (acc, lgs)
  | e :: rest, acc, lgs =>
    if !e.isDir || pyStartsWith e.name "." then scanLoop h all rest acc lgs
    else
      match e.pluginJson with
      | none => scanLoop h all rest acc lgs
      | some (_, pd) =>
        match versionsLoop h all pd (e.releases.getD []) [] [] with
        | .error err => .error err
        | .ok (versions, vlgs) =>
          let lgs' := lgs ++ [LogLine.processing e.name] ++ vlgs
          if versions.isEmpty then scanLoop h all rest acc lgs'
          else
            scanLoop h all rest (dictInsert e.name
              { name := pd.info.name
                description := pd.info.description
                author := pd.info.author
                license := pd.info.license
                repository := pd.info.repository.getD ""
                homepage := pd.info.homepage.getD ""
                tags := pd.info.tags.getD []
                category := pd.info.category.getD "utilities"
                min_delve_version := pd.info.min_delve_version.getD "v0.1.0"
                versions := sortVersionsDesc versions } acc) lgs'

/-- `scan_plugins` of `simple-registry-generator.py` (plugin map plus the
printed progress lines). -/
def scan_plugins (h : Sha256 σ) (entries : List (RootEntry Manifest)) :
    Except String (List (String × PluginRecord) × List LogLine) :=
  scanLoop h entries entries [] []

/-- `generate_registry` of `simple-registry-generator.py` (same literals
as the other variant). -/
def generate_registry (now : String) (plugins : List (String × PluginRecord)) :
    RegistryDoc PluginRecord where
  registry :=
    { name := "Official Delve Plugin Registry"
      description := "Central registry for Delve plugins"
      maintainer := "portablesheep"
      url := "https://github.com/PortableSheep/delve-registry"
      api_version := "v1"
      last_updated := now }
  plugins := plugins
  channels :=
    [("stable", { description := "Stable, production-ready releases"
                  include_prerelease := false, default := some true }),
     ("beta", { description := "Beta releases for testing"
                include_prerelease := true, default := none }),
     ("development", { description := "Latest development builds"
                       include_prerelease := true, default := none })]
  categories :=
    [("data-tools", { name := "Data Tools"
                      description := "Plugins for data manipulation, formatting, and analysis" }),
     ("development-tools", { name := "Development Tools"
                             description := "Plugins for software development workflows" }),
     ("monitoring", { name := "Monitoring & Analytics"
                      description := "Plugins for monitoring systems and analyzing metrics" }),
     ("utilities", { name := "Utilities"
                     description := "General purpose utility plugins" })]
  api :=
    { base_url := "https://raw.githubusercontent.com/PortableSheep/delve-registry/main"
      endpoints :=
        [("registry_metadata", "/registry.yml"),
         ("plugin_list", "/api/plugins.json"),
         ("plugin_details", "/api/plugins/{plugin_id}"),
         ("download_asset", "/{plugin_id}/releases/{version}/{asset_name}"),
         ("plugin_metadata", "/{plugin_id}/plugin.json")] }
  stats :=
    { total_plugins := plugins.length
      total_versions := (plugins.map (fun p => p.2.versions.length)).sum
      most_popular := plugins.map Prod.fst }

/-- `generate_api_files` of `simple-registry-generator.py`. -/
def generate_api_files (now : String) (plugins : List (String × PluginRecord)) :
    ApiOutput PluginRecord where
  pluginsJson :=
    { plugins := plugins.map (fun p =>
        { id := p.1
          name := p.2.name
          description := p.2.description
          author := p.2.author
          category := p.2.category
          tags := p.2.tags
          latest_version :=
            match p.2.versions with
            | [] => none
            | v :: _ => some v.version
          min_delve_version := p.2.min_delve_version })
      total := plugins.length
      last_updated := now }
  detailFiles := plugins

/-- The `main()` pipeline of `simple-registry-generator.py` restricted to
the non-empty case (on an empty plugin map the script returns before
writing anything); `nowR` and `nowA` are the two `utcnow()` samples. -/
def runPipeline (h : Sha256 σ) (entries : List (RootEntry Manifest))
    (nowR nowA : String) : Except String (Option (PipelineOut PluginRecord)) :=
  match scan_plugins h entries with
  | .error e => .error e
  | .ok (plugins, _) =>
    if plugins.isEmpty then .ok none
    else
      .ok (some { registryYml := generate_registry nowR plugins
                  api := generate_api_files nowA plugins })

end SR

/-! Concrete sample inputs used to evaluate the embedding on closed
instances. -/

/-- A minimal well-formed `info` section for the `GR` variant. -/
def mkGRInfo (id : String) : GR.Info where
  id := id
  name := "Plugin " ++ id
  description := "desc"
  author := "author"
  license := "MIT"
  repository := none
  homepage := none
  tags := none
  category := none

/-- A minimal well-formed manifest for the `GR` variant, with one declared
platform `linux/amd64` and the conventional binary pattern. -/
def mkGRManifest (id : String) (fe : Option FrontendDecl) : GR.Manifest where
  info := mkGRInfo id
  compatibility := { min_delve_version := "v0.1.0", supported_versions := ["v0.1.0"] }
  build := { platforms := ["linux/amd64"], binary := "{plugin_name}-{os}-{arch}" }
  frontend := fe

/-- A minimal well-formed `info` section for the `SR` variant. -/
def mkSRInfo (id : String) : SR.Info where
  id := id
  name := "Plugin " ++ id
  description := "desc"
  author := "author"
  license := "MIT"
  repository := none
  homepage := none
  tags := none
  category := none
  min_delve_version := none

/-- A minimal well-formed manifest for the `SR` variant. -/
def mkSRManifest (id : String) (fe : Option FrontendDecl) : SR.Manifest where
  info := mkSRInfo id
  compatibility := none
  frontend := fe

/-- A release directory with the given name and files. -/
def mkVDir (v : String) (files : List (String × List Nat)) : VersionDir where
  name := v
  isDir := true
  mtime := 0
  files := files

/-- A root directory entry for the `GR` variant whose `plugin.json` has
raw bytes `[1]`. -/
def mkGREntry (nm : String) (pd : GR.Manifest) (rels : Option (List VersionDir)) :
    RootEntry GR.Manifest where
  name := nm
  isDir := true
  pluginJson := some ([1], pd)
  releases := rels

/-- A root directory entry for the `SR` variant whose `plugin.json` has
raw bytes `[1]`. -/
def mkSREntry (nm : String) (pd : SR.Manifest) (rels : Option (List VersionDir)) :
    RootEntry SR.Manifest where
  name := nm
  isDir := true
  pluginJson := some ([1], pd)
  releases := rels

/-- The input tree of claim C1 for the `GR` variant: one plugin `p` with
release directories `1.2.0`, `1.10.0`, `1.9.0`, each holding the expected
`linux-amd64` binary. -/
def c1grEntries : List (RootEntry GR.Manifest) :=
  [mkGREntry "p" (mkGRManifest "p" none)
    (some [mkVDir "1.2.0" [("p-linux-amd64", [0])],
           mkVDir "1.10.0" [("p-linux-amd64", [0])],
           mkVDir "1.9.0" [("p-linux-amd64", [0])]])]

/-- The input tree of claim C1 for the `SR` variant. -/
def c1srEntries : List (RootEntry SR.Manifest) :=
  [mkSREntry "p" (mkSRManifest "p" none)
    (some [mkVDir "1.2.0" [("p-linux-amd64", [0])],
           mkVDir "1.10.0" [("p-linux-amd64", [0])],
           mkVDir "1.9.0" [("p-linux-amd64", [0])]])]

/-! Basic lemmas about the embedded dictionary and sorting operations. -/

theorem mem_dictInsert {k : String} {v : β} {l : List (String × β)} {p : String × β}
    (hp : p ∈ dictInsert k v l) : p = (k, v) ∨ p ∈ l := by
  induction l with
  | nil => simpa [dictInsert] using hp
  | cons q rest ih =>
    rw [dictInsert] at hp
    split at hp
    · rcases List.mem_cons.mp hp with h | h
      · exact Or.inl h
      · exact Or.inr (List.mem_cons_of_mem _ h)
    · rcases List.mem_cons.mp hp with h | h
      · exact Or.inr (h ▸ List.mem_cons_self _ _)
      · rcases ih h with h | h
        · exact Or.inl h
        · exact Or.inr (List.mem_cons_of_mem _ h)

theorem keys_dictInsert (k : String) (v : β) (l : List (String × β)) :
    (dictInsert k v l).map Prod.fst =
      if k ∈ l.map Prod.fst then l.map Prod.fst else l.map Prod.fst ++ [k] := by
  induction l with
  | nil => simp [dictInsert]
  | cons q rest ih =>
    rw [dictInsert]
    by_cases hq : q.1 = k
    · rw [if_pos hq]
      rw [if_pos (by rw [List.map_cons, ← hq]; exact List.mem_cons_self _ _)]
      simp [hq]
    · rw [if_neg hq]
      simp only [List.map_cons]
      rw [ih]
      by_cases hm : k ∈ rest.map Prod.fst
      · rw [if_pos hm, if_pos (List.mem_cons_of_mem _ hm)]
      · rw [if_neg hm, if_neg ?_, List.cons_append]
        intro hc
        rcases List.mem_cons.mp hc with hc | hc
        · exact hq hc.symm
        · exact hm hc

theorem self_mem_keys_dictInsert (k : String) (v : β) (l : List (String × β)) :
    k ∈ (dictInsert k v l).map Prod.fst := by
  rw [keys_dictInsert]
  split
  · assumption
  · exact List.mem_append_right _ (List.mem_singleton.mpr rfl)

theorem mem_keys_dictInsert_of_mem {k' : String} {l : List (String × β)}
    (k : String) (v : β) (hk : k' ∈ l.map Prod.fst) :
    k' ∈ (dictInsert k v l).map Prod.fst := by
  rw [keys_dictInsert]
  split
  · exact hk
  · exact List.mem_append_left _ hk

theorem dictInsert_of_not_mem_keys {k : String} {l : List (String × β)}
    (v : β) (hk : k ∉ l.map Prod.fst) : dictInsert k v l = l ++ [(k, v)] := by
  induction l with
  | nil => simp [dictInsert]
  | cons q rest ih =>
    rw [dictInsert]
    have hq : ¬ q.1 = k := by
      intro h
      exact hk (by rw [List.map_cons, ← h]; exact List.mem_cons_self _ _)
    rw [if_neg hq, ih (fun h => hk (by rw [List.map_cons]; exact List.mem_cons_of_mem _ h))]
    simp

theorem length_orderedInsertDesc (a : VersionRecord) (l : List VersionRecord) :
    (orderedInsertDesc a l).length = l.length + 1 := by
  induction l with
  | nil => rfl
  | cons b rest ih =>
    rw [orderedInsertDesc]
    split
    · rfl
    · simpa using ih

theorem length_sortVersionsDesc (l : List VersionRecord) :
    (sortVersionsDesc l).length = l.length := by
  induction l with
  | nil => rfl
  | cons a rest ih =>
    rw [sortVersionsDesc, length_orderedInsertDesc, ih, List.length_cons]

theorem sortVersionsDesc_ne_nil {l : List VersionRecord} (hl : l ≠ []) :
    sortVersionsDesc l ≠ [] := by
  intro h
  apply hl
  have := length_sortVersionsDesc l
  rw [h] at this
  exact List.length_eq_zero.mp this.symm

/-! Invariants of the `generate-registry.py` scanning loop. -/

/-- The condition under which `generate-registry.py` processes a root
entry: a directory other than `.github` containing a `plugin.json`. -/
def GR.eligible (e : RootEntry GR.Manifest) : Bool :=
  e.isDir && e.name != ".github" && e.pluginJson.isSome

/-- The condition under which `simple-registry-generator.py` processes a
root entry: a non-hidden directory containing a `plugin.json`. -/
def SR.eligible (e : RootEntry SR.Manifest) : Bool :=
  e.isDir && !(pyStartsWith e.name ".") && e.pluginJson.isSome

theorem grScanLoop_keys_mono {σ : Type} (h : Sha256 σ)
    (all : List (RootEntry GR.Manifest)) :
    ∀ {rest : List (RootEntry GR.Manifest)} {acc m : List (String × GR.PluginRecord)}
      {k : String}, k ∈ acc.map Prod.fst →
      GR.scanLoop h all rest acc = .ok m → k ∈ m.map Prod.fst := by
  intro rest
  induction rest with
  | nil =>
    intro acc m k hk hs
    rw [GR.scanLoop] at hs
    cases hs
    exact hk
  | cons e rest ih =>
    intro acc m k hk hs
    rw [GR.scanLoop] at hs
    split at hs
    · split at hs
      · split at hs
        · exact Except.noConfusion hs
        · exact ih (mem_keys_dictInsert_of_mem _ _ hk) hs
      · exact ih hk hs
    · exact ih hk hs

theorem grScanLoop_mem_keys {σ : Type} (h : Sha256 σ)
    (all : List (RootEntry GR.Manifest)) :
    ∀ {rest : List (RootEntry GR.Manifest)} {acc m : List (String × GR.PluginRecord)}
      {e : RootEntry GR.Manifest},
      e ∈ rest → e.isDir = true → e.name ≠ ".github" → e.pluginJson.isSome = true →
      GR.scanLoop h all rest acc = .ok m → e.name ∈ m.map Prod.fst := by
  intro rest
  induction rest with
  | nil =>
    intro acc m e hm
    simp at hm
  | cons e0 rest ih =>
    intro acc m e hm h1 h2 h3 hs
    rcases List.mem_cons.mp hm with he | he
    · subst he
      rw [GR.scanLoop] at hs
      rw [if_pos (by simp [h1, bne_iff_ne, h2])] at hs
      split at hs
      · split at hs
        · exact Except.noConfusion hs
        · exact grScanLoop_keys_mono h all (self_mem_keys_dictInsert _ _ _) hs
      · rename_i heq
        rw [heq] at h3
        simp at h3
    · rw [GR.scanLoop] at hs
      split at hs
      · split at hs
        · split at hs
          · exact Except.noConfusion hs
          · exact ih he h1 h2 h3 hs
        · exact ih he h1 h2 h3 hs
      · exact ih he h1 h2 h3 hs

theorem grScanLoop_keys_eq {σ : Type} (h : Sha256 σ)
    (all : List (RootEntry GR.Manifest)) :
    ∀ {rest : List (RootEntry GR.Manifest)} {acc m : List (String × GR.PluginRecord)},
      (rest.map RootEntry.name).Nodup →
      (∀ e ∈ rest, e.name ∉ acc.map Prod.fst) →
      GR.scanLoop h all rest acc = .ok m →
      m.map Prod.fst = acc.map Prod.fst ++ (rest.filter GR.eligible).map RootEntry.name := by
  intro rest
  induction rest with
  | nil =>
    intro acc m _ _ hs
    rw [GR.scanLoop] at hs
    cases hs
    simp
  | cons e rest ih =>
    intro acc m hnd hdisj hs
    have hnd1 : e.name ∉ rest.map RootEntry.name := (List.nodup_cons.mp hnd).1
    have hnd2 : (rest.map RootEntry.name).Nodup := (List.nodup_cons.mp hnd).2
    have hdisj1 : e.name ∉ acc.map Prod.fst := hdisj e (List.mem_cons_self _ _)
    have hdisjR : ∀ x ∈ rest, x.name ∉ acc.map Prod.fst :=
      fun x hx => hdisj x (List.mem_cons_of_mem _ hx)
    rw [GR.scanLoop] at hs
    split at hs
    · rename_i hcond
      split at hs
      · rename_i bp heq
        split at hs
        · exact Except.noConfusion hs
        · rename_i rec _
          have hacc' : dictInsert e.name rec acc = acc ++ [(e.name, rec)] :=
            dictInsert_of_not_mem_keys rec hdisj1
          rw [hacc'] at hs
          have hdisj' : ∀ x ∈ rest, x.name ∉ (acc ++ [(e.name, rec)]).map Prod.fst := by
            intro x hx hmem
            rw [List.map_append] at hmem
            rcases List.mem_append.mp hmem with hmem | hmem
            · exact hdisjR x hx hmem
            · have : x.name = e.name := by simpa using hmem
              exact hnd1 (this ▸ List.mem_map_of_mem RootEntry.name hx)
          have := ih hnd2 hdisj' hs
          rw [this, List.map_append]
          have helig : GR.eligible e = true := by
            simp only [GR.eligible]
            rw [hcond, heq]
            simp
          rw [List.filter_cons, if_pos helig]
          simp
      · rename_i heq
        have helig : GR.eligible e = false := by
          simp only [GR.eligible]
          rw [heq]
          simp
        rw [List.filter_cons, if_neg (by simp [helig])]
        exact ih hnd2 hdisjR hs
    · rename_i hcond
      have helig : GR.eligible e = false := by
        simp only [GR.eligible]
        rcases (by simpa using hcond : ¬ (e.isDir = true ∧ e.name ≠ ".github")) with h
        by_cases h1 : e.isDir = true
        · by_cases h2 : e.name = ".github"
          · simp [h2]
          · exact absurd ⟨h1, h2⟩ h
        · simp [Bool.eq_false_iff.mpr h1]
      rw [List.filter_cons, if_neg (by simp [helig])]
      exact ih hnd2 hdisjR hs

/-! Invariants of the `simple-registry-generator.py` scanning loop. -/

/-- Extracts the plugin name of a `Processing plugin:` progress line. -/
def processingName : LogLine → Option String
  | .processing n => some n
  | _ => none

theorem srScanLoop_keys_mono {σ : Type} (h : Sha256 σ)
    (all : List (RootEntry SR.Manifest)) :
    ∀ {rest : List (RootEntry SR.Manifest)} {acc m : List (String × SR.PluginRecord)}
      {lgs lgs' : List LogLine} {k : String}, k ∈ acc.map Prod.fst →
      SR.scanLoop h all rest acc lgs = .ok (m, lgs') → k ∈ m.map Prod.fst := by
  intro rest
  induction rest with
  | nil =>
    intro acc m lgs lgs' k hk hs
    rw [SR.scanLoop] at hs
    cases hs
    exact hk
  | cons e rest ih =>
    intro acc m lgs lgs' k hk hs
    rw [SR.scanLoop] at hs
    split at hs
    · exact ih hk hs
    · split at hs
      · exact ih hk hs
      · split at hs
        · exact Except.noConfusion hs
        · split at hs
          · exact ih hk hs
          · exact ih (mem_keys_dictInsert_of_mem _ _ hk) hs

theorem srScanLoop_versions_ne_nil {σ : Type} (h : Sha256 σ)
    (all : List (RootEntry SR.Manifest)) :
    ∀ {rest : List (RootEntry SR.Manifest)} {acc m : List (String × SR.PluginRecord)}
      {lgs lgs' : List LogLine},
      (∀ p ∈ acc, p.2.versions ≠ []) →
      SR.scanLoop h all rest acc lgs = .ok (m, lgs') →
      ∀ p ∈ m, p.2.versions ≠ [] := by
  intro rest
  induction rest with
  | nil =>
    intro acc m lgs lgs' hacc hs
    rw [SR.scanLoop] at hs
    cases hs
    exact hacc
  | cons e rest ih =>
    intro acc m lgs lgs' hacc hs
    rw [SR.scanLoop] at hs
    split at hs
    · exact ih hacc hs
    · split at hs
      · exact ih hacc hs
      · split at hs
        · exact Except.noConfusion hs
        · rename_i versions vlgs _
          split at hs
          · exact ih hacc hs
          · rename_i hne
            refine ih ?_ hs
            intro p hp
            rcases mem_dictInsert hp with hpe | hpe
            · subst hpe
              exact sortVersionsDesc_ne_nil (by simpa using hne)
            · exact hacc p hpe

theorem srScanLoop_mem_keys {σ : Type} (h : Sha256 σ)
    (all : List (RootEntry SR.Manifest)) :
    ∀ {rest : List (RootEntry SR.Manifest)} {acc m : List (String × SR.PluginRecord)}
      {lgs lgs' : List LogLine} {e : RootEntry SR.Manifest} {b : List Nat}
      {pd : SR.Manifest} {vs : List VersionRecord} {vlgs : List LogLine},
      e ∈ rest → e.isDir = true → pyStartsWith e.name "." = false →
      e.pluginJson = some (b, pd) →
      SR.versionsLoop h all pd (e.releases.getD []) [] [] = .ok (vs, vlgs) →
      vs ≠ [] →
      SR.scanLoop h all rest acc lgs = .ok (m, lgs') → e.name ∈ m.map Prod.fst := by
  intro rest
  induction rest with
  | nil =>
    intro acc m lgs lgs' e b pd vs vlgs hm
    simp at hm
  | cons e0 rest ih =>
    intro acc m lgs lgs' e b pd vs vlgs hm h1 h2 hpj hvl hvs hs
    rcases List.mem_cons.mp hm with he | he
    · subst he
      rw [SR.scanLoop] at hs
      rw [if_neg (by simp [h1, h2])] at hs
      split at hs
      · rename_i heq
        rw [hpj] at heq
        exact Option.noConfusion heq
      · rename_i b' pd' heq
        rw [hpj] at heq
        cases heq
        split at hs
        · rename_i heq2
          rw [hvl] at heq2
          exact Except.noConfusion heq2
        · rename_i versions vlgs0 heq2
          rw [hvl] at heq2
          cases heq2
          split at hs
          · rename_i hemp
            exact absurd (by simpa using hemp) hvs
          · exact srScanLoop_keys_mono h all (self_mem_keys_dictInsert _ _ _) hs
    · rw [SR.scanLoop] at hs
      split at hs
      · exact ih he h1 h2 hpj hvl hvs hs
      · split at hs
        · exact ih he h1 h2 hpj hvl hvs hs
        · split at hs
          · exact Except.noConfusion hs
          · split at hs
            · exact ih he h1 h2 hpj hvl hvs hs
            · exact ih he h1 h2 hpj hvl hvs hs

theorem srProcessVersion_logs {σ : Type} {h : Sha256 σ}
    {entries : List (RootEntry SR.Manifest)} {vd : VersionDir} {pd : SR.Manifest}
    {r : Option VersionRecord} {lg : List LogLine}
    (hpv : SR.process_version h entries vd pd = .ok (r, lg)) :
    lg.filterMap processingName = [] := by
  rw [SR.process_version] at hpv
  split at hpv
  · cases hpv
    rfl
  · split at hpv
    · split at hpv
      · exact Except.noConfusion hpv
      · cases hpv
        rfl
    · split at hpv
      · exact Except.noConfusion hpv
      · cases hpv
        rfl

theorem srVersionsLoop_logs {σ : Type} (h : Sha256 σ)
    (entries : List (RootEntry SR.Manifest)) (pd : SR.Manifest) :
    ∀ {dirs : List VersionDir} {acc : List VersionRecord} {lgs lgs' : List LogLine}
      {vs : List VersionRecord},
      SR.versionsLoop h entries pd dirs acc lgs = .ok (vs, lgs') →
      lgs'.filterMap processingName = lgs.filterMap processingName := by
  intro dirs
  induction dirs with
  | nil =>
    intro acc lgs lgs' vs hs
    rw [SR.versionsLoop] at hs
    cases hs
    rfl
  | cons vd rest ih =>
    intro acc lgs lgs' vs hs
    rw [SR.versionsLoop] at hs
    split at hs
    · split at hs
      · exact Except.noConfusion hs
      · rename_i lg heq
        rw [ih hs, List.filterMap_append, srProcessVersion_logs heq, List.append_nil]
      · rename_i r lg heq
        rw [ih hs, List.filterMap_append, srProcessVersion_logs heq, List.append_nil]
    · exact ih hs

theorem srScanLoop_logs {σ : Type} (h : Sha256 σ)
    (all : List (RootEntry SR.Manifest)) :
    ∀ {rest : List (RootEntry SR.Manifest)} {acc m : List (String × SR.PluginRecord)}
      {lgs lgs' : List LogLine},
      SR.scanLoop h all rest acc lgs = .ok (m, lgs') →
      lgs'.filterMap processingName =
        lgs.filterMap processingName ++ (rest.filter SR.eligible).map RootEntry.name := by
  intro rest
  induction rest with
  | nil =>
    intro acc m lgs lgs' hs
    rw [SR.scanLoop] at hs
    cases hs
    simp
  | cons e rest ih =>
    intro acc m lgs lgs' hs
    rw [SR.scanLoop] at hs
    split at hs
    · rename_i hcond
      have helig : SR.eligible e = false := by
        simp only [SR.eligible]
        rcases (by simpa using hcond : e.isDir = false ∨ pyStartsWith e.name "." = true) with hh | hh
        · simp [hh]
        · simp [hh]
      rw [List.filter_cons, if_neg (by simp [helig]), ih hs]
    · rename_i hcond
      have hdir : e.isDir = true ∧ pyStartsWith e.name "." = false := by
        simpa using hcond
      split at hs
      · rename_i heq
        have helig : SR.eligible e = false := by
          simp [SR.eligible, heq]
        rw [List.filter_cons, if_neg (by simp [helig]), ih hs]
      · rename_i b pd heq
        have helig : SR.eligible e = true := by
          simp [SR.eligible, hdir.1, hdir.2, heq]
        split at hs
        · exact Except.noConfusion hs
        · rename_i versions vlgs heq2
          have hvlgs : vlgs.filterMap processingName = [] := by
            simpa using srVersionsLoop_logs h all pd heq2
          split at hs
          · rw [List.filter_cons, if_pos helig, ih hs]
            simp [List.filterMap_append, hvlgs, processingName]
          · rw [List.filter_cons, if_pos helig, ih hs]
            simp [List.filterMap_append, hvlgs, processingName]

theorem srScanLoop_no_manifest {σ : Type} (h : Sha256 σ)
    (all : List (RootEntry SR.Manifest)) :
    ∀ {rest : List (RootEntry SR.Manifest)} {acc : List (String × SR.PluginRecord)}
      {lgs : List LogLine},
      (∀ e ∈ rest, e.pluginJson = none) → SR.scanLoop h all rest acc lgs = .ok (acc, lgs) := by
  intro rest
  induction rest with
  | nil =>
    intro acc lgs _
    rw [SR.scanLoop]
  | cons e rest ih =>
    intro acc lgs hnone
    rw [SR.scanLoop]
    split
    · exact ih (fun x hx => hnone x (List.mem_cons_of_mem _ hx))
    · rw [hnone e (List.mem_cons_self _ _)]
      exact ih (fun x hx => hnone x (List.mem_cons_of_mem _ hx))

/-! Provenance of the checksum strings built by the asset loops: each
asset's checksum is the digest of exactly the binary file that asset
refers to — the file named by the variant's naming scheme for the asset's
platform key, the same name synthesized into the asset's `url` — and the
recorded `size` is that file's byte count. -/

/-- What `process_release` guarantees about one emitted asset of
`generate-registry.py`: its platform key is `os-arch` for the declared
platform, its checksum is the digest of the bytes of the binary
`binaryName pd os arch` found in the version directory, its `url` names
that same binary, and its `size` is the file's byte count. -/
def grAssetMatches {σ : Type} (h : Sha256 σ) (pd : GR.Manifest) (vd : VersionDir)
    (pa : String × Asset) : Prop :=
  ∃ osName arch bytes,
    pa.1 = osName ++ "-" ++ arch
    ∧ vd.files.lookup (GR.binaryName pd osName arch) = some bytes
    ∧ pa.2.url = pd.info.id ++ "/releases/" ++ vd.name ++ "/" ++ GR.binaryName pd osName arch
    ∧ pa.2.checksum = "sha256:" ++ calculate_checksum h bytes
    ∧ pa.2.size = bytes.length

theorem grAssetsLoop_checksums {σ : Type} (h : Sha256 σ) (pd : GR.Manifest) (vd : VersionDir) :
    ∀ {platforms : List String} {acc assets : List (String × Asset)},
      (∀ pa ∈ acc, grAssetMatches h pd vd pa) →
      GR.assetsLoop h pd vd platforms acc = .ok assets →
      ∀ pa ∈ assets, grAssetMatches h pd vd pa := by
  intro platforms
  induction platforms with
  | nil =>
    intro acc assets hacc hal
    rw [GR.assetsLoop] at hal
    cases hal
    exact hacc
  | cons platform rest ih =>
    intro acc assets hacc hal
    rw [GR.assetsLoop] at hal
    split at hal
    · rename_i osName arch heq
      dsimp only [] at hal
      split at hal
      · rename_i bytes hlook
        refine ih ?_ hal
        intro pa hpa
        rcases mem_dictInsert hpa with hpe | hpe
        · subst hpe
          exact ⟨osName, arch, bytes, rfl, hlook, rfl, rfl, rfl⟩
        · exact hacc pa hpe
      · exact ih hacc hal
    all_goals exact Except.noConfusion hal

/-- The conventional binary filename of `simple-registry-generator.py`'s
`process_version`: `{plugin_id}-{platform}`, plus `.exe` on
`windows-amd64`. -/
def SR.srBinaryName (plugin_id platform : String) : String :=
  plugin_id ++ "-" ++ platform ++ (if platform = "windows-amd64" then ".exe" else "")

/-- What `process_version` guarantees about one emitted asset of
`simple-registry-generator.py`: its checksum is the digest of the bytes of
the conventional binary for its own platform key, its `url` names that
same binary, and its `size` is the file's byte count. -/
def srAssetMatches {σ : Type} (h : Sha256 σ) (pid : String) (vd : VersionDir)
    (pa : String × Asset) : Prop :=
  ∃ bytes,
    vd.files.lookup (SR.srBinaryName pid pa.1) = some bytes
    ∧ pa.2.url = pid ++ "/releases/" ++ vd.name ++ "/" ++ SR.srBinaryName pid pa.1
    ∧ pa.2.checksum = "sha256:" ++ calculate_checksum h bytes
    ∧ pa.2.size = bytes.length

theorem SR.assetsLoop_checksums {σ : Type} (h : Sha256 σ) (pid : String) (vd : VersionDir) :
    ∀ {platforms : List String} {acc : List (String × Asset)},
      (∀ pa ∈ acc, srAssetMatches h pid vd pa) →
      ∀ pa ∈ SR.assetsLoop h pid vd platforms acc, srAssetMatches h pid vd pa := by
  intro platforms
  induction platforms with
  | nil =>
    intro acc hacc
    rw [SR.assetsLoop]
    exact hacc
  | cons platform rest ih =>
    intro acc hacc
    rw [SR.assetsLoop]
    split
    · rename_i bytes hlook
      refine ih ?_
      intro pa hpa
      rcases mem_dictInsert hpa with hpe | hpe
      · subst hpe
        exact ⟨bytes, hlook, rfl, rfl, rfl⟩
      · exact hacc pa hpe
    · exact ih hacc

theorem grScanLoop_no_manifest {σ : Type} (h : Sha256 σ)
    (all : List (RootEntry GR.Manifest)) :
    ∀ {rest : List (RootEntry GR.Manifest)} {acc : List (String × GR.PluginRecord)},
      (∀ e ∈ rest, e.pluginJson = none) → GR.scanLoop h all rest acc = .ok acc := by
  intro rest
  induction rest with
  | nil =>
    intro acc _
    rw [GR.scanLoop]
  | cons e rest ih =>
    intro acc hnone
    rw [GR.scanLoop]
    split
    · rw [hnone e (List.mem_cons_self _ _)]
      exact ih (fun x hx => hnone x (List.mem_cons_of_mem _ hx))
    · exact ih (fun x hx => hnone x (List.mem_cons_of_mem _ hx))

/-! Claim C1. -/

/-- Claim C1 (code_bug): both scripts sort the `versions` sequence with
plain string comparison (`key=lambda x: x["version"]`, `reverse=True`),
not semantic-version comparison, despite the simple variant's own comment
`Sort versions by semver`. On version directories `1.2.0`, `1.10.0`,
`1.9.0` both emit the lexicographic descending order
`["1.9.0", "1.2.0", "1.10.0"]` instead of the semantic order
`["1.10.0", "1.9.0", "1.2.0"]` the claim requires. -/
theorem claim_C1 :
    (GR.scan_plugins listHash c1grEntries).map
        (fun m => m.map (fun p => p.2.versions.map VersionRecord.version))
      = .ok [["1.9.0", "1.2.0", "1.10.0"]]
    ∧ (SR.scan_plugins listHash c1srEntries).map
        (fun r => r.1.map (fun p => p.2.versions.map VersionRecord.version))
      = .ok [["1.9.0", "1.2.0", "1.10.0"]]
    ∧ ["1.9.0", "1.2.0", "1.10.0"] ≠ ["1.10.0", "1.9.0", "1.2.0"] :=
  ⟨rfl, rfl, by decide⟩

/-! Claim C2. -/

/-- Claim C2 input: a `generate-registry.py` plugin directory `q` with a
manifest but no `releases/` directory at all. -/
def c2grEntries : List (RootEntry GR.Manifest) :=
  [mkGREntry "q" (mkGRManifest "q" none) none]

/-- The plugin record `generate-registry.py` emits for `c2grEntries`:
note the empty `versions` list. -/
def c2record : GR.PluginRecord where
  name := "Plugin q"
  description := "desc"
  author := "author"
  license := "MIT"
  repository := none
  homepage := none
  tags := []
  category := "utilities"
  min_delve_version := "v0.1.0"
  versions := []

/-- Claim C2 counterexample: `generate-registry.py` does NOT omit a plugin
whose scan yields zero version records — `q` appears in the registry's
plugin map, in the discovery list, and among the detail files, with an
empty `versions` list. -/
theorem claim_C2_counterexample :
    GR.scan_plugins listHash c2grEntries = .ok [("q", c2record)]
    ∧ c2record.versions = []
    ∧ (GR.generate_registry "T" [("q", c2record)]).plugins.map Prod.fst = ["q"]
    ∧ ((GR.generate_api_files "T" [("q", c2record)]).pluginsJson.plugins.map DiscoveryEntry.id)
        = ["q"]
    ∧ (GR.generate_api_files "T" [("q", c2record)]).detailFiles.map Prod.fst = ["q"] :=
  ⟨rfl, rfl, rfl, rfl, rfl⟩

/-- Claim C2 (corrected, amended): in `simple-registry-generator.py` the
`if versions:` gate does hold — every plugin record present in that
variant's output has a non-empty `versions` list (zero-version plugins are
omitted). `generate-registry.py` instead keeps zero-version plugins, as
the counterexample shows. -/
theorem claim_C2 : ∀ {σ : Type} (h : Sha256 σ) (entries : List (RootEntry SR.Manifest))
    (m : List (String × SR.PluginRecord)) (lgs : List LogLine)
    (p : String × SR.PluginRecord),
    SR.scan_plugins h entries = .ok (m, lgs) → p ∈ m → p.2.versions ≠ [] := by
  intro σ h entries m lgs p hs hp
  exact srScanLoop_versions_ne_nil h entries
    (fun q hq => absurd hq (List.not_mem_nil q)) hs p hp

/-- Claim C2 witness input: one simple-variant plugin `w` with one valid
release. -/
def c2srEntries : List (RootEntry SR.Manifest) :=
  [mkSREntry "w" (mkSRManifest "w" none) (some [mkVDir "1.0.0" [("w-linux-amd64", [0])]])]

/-- The plugin map `simple-registry-generator.py` produces on
`c2srEntries`. -/
def c2m : List (String × SR.PluginRecord) :=
  match SR.scan_plugins listHash c2srEntries with
  | .ok p => p.1
  | .error _ => []

/-- The progress log produced on `c2srEntries`. -/
def c2lgs : List LogLine :=
  match SR.scan_plugins listHash c2srEntries with
  | .ok p => p.2
  | .error _ => []

/-- The first entry of `c2m` (with a vacuous fallback). -/
def c2p : String × SR.PluginRecord :=
  match c2m with
  | p :: _ => p
  | [] => ("", { name := "", description := "", author := "", license := ""
                 repository := "", homepage := "", tags := [], category := ""
                 min_delve_version := "", versions := [] })

theorem claim_C2_witness : c2p.2.versions ≠ [] :=
  claim_C2 listHash c2srEntries c2m c2lgs c2p rfl (List.mem_singleton.mpr rfl)

/-! Claim C3. -/

/-- All checksum strings occurring in one version record. -/
def recordChecksums (r : VersionRecord) : List String :=
  r.assets.map (fun pa => pa.2.checksum)
    ++ (match r.frontend with | some fb => [fb.checksum] | none => [])
    ++ [r.plugin_metadata.checksum]

/-- All checksum strings in a `generate-registry.py` plugin map. -/
def grMapChecksums (m : List (String × GR.PluginRecord)) : List String :=
  (m.map (fun p => (p.2.versions.map recordChecksums).flatten)).flatten

/-- The contents of every file of a `generate-registry.py` input tree. -/
def grTreeFiles (entries : List (RootEntry GR.Manifest)) : List (List Nat) :=
  (entries.map (fun e =>
    (match e.pluginJson with | some bp => [bp.1] | none => [])
      ++ ((e.releases.getD []).map (fun vd => vd.files.map Prod.snd)).flatten)).flatten

/-- Claim C3 input: plugin `p` declares frontend entry `app.js`, has one
release with only its platform binary — the declared frontend file is
missing. -/
def c3grEntries : List (RootEntry GR.Manifest) :=
  [mkGREntry "p" (mkGRManifest "p" (some ⟨some "app.js"⟩))
    (some [mkVDir "1.0.0" [("p-linux-amd64", [0])]])]

/-- Claim C3 counterexample: the generator emits the checksum string
`sha256:missing` (for the declared-but-absent frontend file), which is not
`sha256:` followed by the digest of any file of the input tree — so not
every emitted checksum is a tagged SHA-256 digest of a file's bytes. -/
theorem claim_C3_counterexample :
    (GR.scan_plugins listHash c3grEntries).map
        (fun m => (grMapChecksums m).contains "sha256:missing") = .ok true
    ∧ ((grTreeFiles c3grEntries).map
        (fun bytes => "sha256:" ++ calculate_checksum listHash bytes)).contains
          "sha256:missing" = false :=
  ⟨rfl, rfl⟩

/-- Claim C3 (corrected, amended): every checksum the release processors
emit for a platform asset or a manifest reference is `sha256:` followed by
the digest of the corresponding file's bytes — for an asset, the bytes of
exactly the binary named by the variant's naming scheme for that asset's
platform key, the same name synthesized into the asset's `url`, with
`size` the file's byte count; for `plugin_metadata`, the bytes of the
plugin's own `plugin.json` — and likewise for a frontend block whose file
exists; the one exception is `generate-registry.py`'s frontend block for a
declared-but-missing file, which carries the literal `sha256:missing`. -/
theorem claim_C3 : ∀ {σ : Type} (h : Sha256 σ),
    (∀ (entries : List (RootEntry GR.Manifest)) (vd : VersionDir) (pd : GR.Manifest)
       (rec : VersionRecord) (lg : List LogLine),
       GR.process_release h entries vd pd = .ok (some rec, lg) →
       (∀ pa ∈ rec.assets, grAssetMatches h pd vd pa)
       ∧ (∃ mb, readPluginJson entries pd.info.id = some mb ∧
            rec.plugin_metadata.checksum = "sha256:" ++ calculate_checksum h mb)
       ∧ (∀ fb, rec.frontend = some fb →
            (∃ bytes, vd.files.lookup fb.entry = some bytes ∧
               fb.checksum = "sha256:" ++ calculate_checksum h bytes)
            ∨ (vd.files.lookup fb.entry = none ∧ fb.checksum = "sha256:missing")))
    ∧ (∀ (entries : List (RootEntry SR.Manifest)) (vd : VersionDir) (pd : SR.Manifest)
       (rec : VersionRecord) (lg : List LogLine),
       SR.process_version h entries vd pd = .ok (some rec, lg) →
       (∀ pa ∈ rec.assets, srAssetMatches h pd.info.id vd pa)
       ∧ (∃ mb, readPluginJson entries pd.info.id = some mb ∧
            rec.plugin_metadata.checksum = "sha256:" ++ calculate_checksum h mb)
       ∧ (∀ fb, rec.frontend = some fb →
            ∃ bytes, vd.files.lookup fb.entry = some bytes ∧
              fb.checksum = "sha256:" ++ calculate_checksum h bytes)) := by
  intro σ h
  constructor
  · intro entries vd pd rec lg hpr
    rw [GR.process_release] at hpr
    split at hpr
    · exact Except.noConfusion hpr
    · rename_i assets hassets
      dsimp only [] at hpr
      split at hpr
      · cases hpr
      · split at hpr
        · exact Except.noConfusion hpr
        · rename_i metaBytes hmeta
          cases hpr
          refine ⟨?_, ⟨metaBytes, hmeta, rfl⟩, ?_⟩
          · exact grAssetsLoop_checksums h pd vd
              (fun pa hpa => absurd hpa (List.not_mem_nil pa)) hassets
          · intro fb hfb
            dsimp only [] at hfb
            rcases hfc : GR.frontendChecksum h pd vd with _ | ⟨e, c⟩
            · rw [hfc] at hfb
              exact Option.noConfusion hfb
            · rw [hfc] at hfb
              dsimp only [] at hfb
              split at hfb
              · exact Option.noConfusion hfb
              · cases hfb
                rw [GR.frontendChecksum] at hfc
                split at hfc
                · split at hfc
                  · split at hfc
                    · exact Option.noConfusion hfc
                    · split at hfc
                      · rename_i bytes hlook
                        cases hfc
                        exact Or.inl ⟨bytes, hlook, rfl⟩
                      · rename_i hlook
                        cases hfc
                        refine Or.inr ⟨hlook, ?_⟩
                        have hms : ("sha256:" ++ "missing" : String) = "sha256:missing" := by
                          decide
                        rw [hms]
                  · exact Option.noConfusion hfc
                · exact Option.noConfusion hfc
  · intro entries vd pd rec lg hpv
    rw [SR.process_version] at hpv
    split at hpv
    · cases hpv
    · rename_i hne
      split at hpv
      · rename_i bytes hlook
        split at hpv
        · exact Except.noConfusion hpv
        · rename_i metaBytes hmeta
          cases hpv
          refine ⟨?_, ⟨metaBytes, hmeta, rfl⟩, ?_⟩
          · exact SR.assetsLoop_checksums h pd.info.id vd
              (fun pa hpa => absurd hpa (List.not_mem_nil pa))
          · intro fb hfb
            cases hfb
            exact ⟨bytes, hlook, rfl⟩
      · split at hpv
        · exact Except.noConfusion hpv
        · rename_i metaBytes hmeta
          cases hpv
          refine ⟨?_, ⟨metaBytes, hmeta, rfl⟩, ?_⟩
          · exact SR.assetsLoop_checksums h pd.info.id vd
              (fun pa hpa => absurd hpa (List.not_mem_nil pa))
          · intro fb hfb
            exact Option.noConfusion hfb

/-- Claim C3 witness inputs: the release directory and manifest of
`c3grEntries`, and a simple-variant tree whose release has both a binary
and a `component.js`. -/
def c3vd : VersionDir := mkVDir "1.0.0" [("p-linux-amd64", [0])]

/-- The `generate-registry.py` manifest of `c3grEntries`. -/
def c3pd : GR.Manifest := mkGRManifest "p" (some ⟨some "app.js"⟩)

/-- The version record produced on the C3 witness input. -/
def c3rec : VersionRecord :=
  match GR.process_release listHash c3grEntries c3vd c3pd with
  | .ok (some r, _) => r
  | _ => { version := "", released := "", compatibility := [], assets := []
           frontend := none, plugin_metadata := { url := "", checksum := "" } }

/-- The log produced on the C3 witness input. -/
def c3lg : List LogLine :=
  match GR.process_release listHash c3grEntries c3vd c3pd with
  | .ok (_, lg) => lg
  | .error _ => []

/-- A simple-variant tree for the C3 witness. -/
def c3srEntries : List (RootEntry SR.Manifest) :=
  [mkSREntry "p" (mkSRManifest "p" none)
    (some [mkVDir "1.0.0" [("p-linux-amd64", [0]), ("component.js", [2])]])]

/-- The release directory of `c3srEntries`. -/
def c3srvd : VersionDir := mkVDir "1.0.0" [("p-linux-amd64", [0]), ("component.js", [2])]

/-- The simple-variant manifest of `c3srEntries`. -/
def c3srpd : SR.Manifest := mkSRManifest "p" none

/-- The version record produced on the simple-variant C3 witness input. -/
def c3srrec : VersionRecord :=
  match SR.process_version listHash c3srEntries c3srvd c3srpd with
  | .ok (some r, _) => r
  | _ => { version := "", released := "", compatibility := [], assets := []
           frontend := none, plugin_metadata := { url := "", checksum := "" } }

/-- The log produced on the simple-variant C3 witness input. -/
def c3srlg : List LogLine :=
  match SR.process_version listHash c3srEntries c3srvd c3srpd with
  | .ok (_, lg) => lg
  | .error _ => []

theorem claim_C3_witness :
    c3rec.plugin_metadata.checksum = "sha256:" ++ calculate_checksum listHash [1]
    ∧ c3srrec.plugin_metadata.checksum = "sha256:" ++ calculate_checksum listHash [1] := by
  constructor
  · obtain ⟨-, ⟨mb, hmb, hcs⟩, -⟩ :=
      (claim_C3 listHash).1 c3grEntries c3vd c3pd c3rec c3lg rfl
    have hmb1 : mb = [1] := by
      have h1 : readPluginJson c3grEntries c3pd.info.id = some [1] := rfl
      exact Option.some.inj (hmb.symm.trans h1)
    rw [hcs, hmb1]
  · obtain ⟨-, ⟨mb, hmb, hcs⟩, -⟩ :=
      (claim_C3 listHash).2 c3srEntries c3srvd c3srpd c3srrec c3srlg rfl
    have hmb1 : mb = [1] := by
      have h1 : readPluginJson c3srEntries c3srpd.info.id = some [1] := rfl
      exact Option.some.inj (hmb.symm.trans h1)
    rw [hcs, hmb1]

/-! Claim C4. -/

/-- Claim C4 input for the simple variant: the manifest declares frontend
entry `app.js`, the release directory has only the platform binary. -/
def c4srEntries : List (RootEntry SR.Manifest) :=
  [mkSREntry "p" (mkSRManifest "p" (some ⟨some "app.js"⟩))
    (some [mkVDir "1.0.0" [("p-linux-amd64", [0])]])]

/-- Claim C4 counterexample: `simple-registry-generator.py` never reads
the manifest's frontend declaration — with `app.js` declared but absent
(and no conventional `component.js`), the emitted record's `frontend`
field is omitted entirely (`none`), not a distinguishable missing
state. -/
theorem claim_C4_counterexample :
    (mkSRManifest "p" (some ⟨some "app.js"⟩)).frontend = some ⟨some "app.js"⟩
    ∧ (SR.scan_plugins listHash c4srEntries).map
        (fun r => r.1.map (fun p => p.2.versions.map VersionRecord.frontend))
      = .ok [[(none : Option FrontendBlock)]] :=
  ⟨rfl, rfl⟩

/-- Claim C4 (corrected, amended): `generate-registry.py` does surface a
declared-but-missing frontend as a block with checksum `sha256:missing`;
`simple-registry-generator.py` ignores the declaration entirely and keys
its frontend block solely on the presence of the conventional
`component.js`, omitting the field when that file is absent. -/
theorem claim_C4 : ∀ {σ : Type} (h : Sha256 σ),
    (∀ (entries : List (RootEntry GR.Manifest)) (vd : VersionDir) (pd : GR.Manifest)
       (e : String) (rec : VersionRecord) (lg : List LogLine),
       pd.frontend = some ⟨some e⟩ → e ≠ "" → vd.files.lookup e = none →
       GR.process_release h entries vd pd = .ok (some rec, lg) →
       rec.frontend = some ⟨e, "sha256:missing"⟩)
    ∧ (∀ (entries : List (RootEntry SR.Manifest)) (vd : VersionDir) (pd : SR.Manifest)
       (rec : VersionRecord) (lg : List LogLine),
       SR.process_version h entries vd pd = .ok (some rec, lg) →
       rec.frontend = (vd.files.lookup "component.js").map
         (fun bytes => { entry := "component.js"
                         checksum := "sha256:" ++ calculate_checksum h bytes })) := by
  intro σ h
  constructor
  · intro entries vd pd e rec lg hfe he hlook hpr
    have hfc : GR.frontendChecksum h pd vd = some (e, "missing") := by
      rw [GR.frontendChecksum, hfe]
      dsimp only []
      rw [if_neg he, hlook]
    rw [GR.process_release] at hpr
    split at hpr
    · exact Except.noConfusion hpr
    · dsimp only [] at hpr
      split at hpr
      · cases hpr
      · split at hpr
        · exact Except.noConfusion hpr
        · cases hpr
          dsimp only []
          rw [hfc]
          dsimp only []
          rw [if_neg (by decide : ¬ ("missing" : String) = "")]
          have hms : ("sha256:" ++ "missing" : String) = "sha256:missing" := by decide
          rw [hms]
  · intro entries vd pd rec lg hpv
    rw [SR.process_version] at hpv
    split at hpv
    · cases hpv
    · split at hpv
      · rename_i bytes hlook
        split at hpv
        · exact Except.noConfusion hpv
        · cases hpv
          rw [hlook]
          rfl
      · rename_i hlook
        split at hpv
        · exact Except.noConfusion hpv
        · cases hpv
          rw [hlook]
          rfl

/-- Claim C4 witness inputs for the `generate-registry.py` half. -/
def c4vd : VersionDir := mkVDir "1.0.0" [("p-linux-amd64", [0])]

/-- The `generate-registry.py` manifest declaring `app.js`. -/
def c4pd : GR.Manifest := mkGRManifest "p" (some ⟨some "app.js"⟩)

/-- A `generate-registry.py` tree matching `c4vd`/`c4pd`. -/
def c4grEntries : List (RootEntry GR.Manifest) := [mkGREntry "p" c4pd (some [c4vd])]

/-- The version record produced on the C4 witness input. -/
def c4rec : VersionRecord :=
  match GR.process_release listHash c4grEntries c4vd c4pd with
  | .ok (some r, _) => r
  | _ => { version := "", released := "", compatibility := [], assets := []
           frontend := none, plugin_metadata := { url := "", checksum := "" } }

/-- The log produced on the C4 witness input. -/
def c4lg : List LogLine :=
  match GR.process_release listHash c4grEntries c4vd c4pd with
  | .ok (_, lg) => lg
  | .error _ => []

/-- The simple-variant manifest of `c4srEntries`. -/
def c4srpd : SR.Manifest := mkSRManifest "p" (some ⟨some "app.js"⟩)

/-- The version record produced on the simple-variant C4 input. -/
def c4srrec : VersionRecord :=
  match SR.process_version listHash c4srEntries c4vd c4srpd with
  | .ok (some r, _) => r
  | _ => { version := "", released := "", compatibility := [], assets := []
           frontend := none, plugin_metadata := { url := "", checksum := "" } }

/-- The log produced on the simple-variant C4 input. -/
def c4srlg : List LogLine :=
  match SR.process_version listHash c4srEntries c4vd c4srpd with
  | .ok (_, lg) => lg
  | .error _ => []

theorem claim_C4_witness :
    c4rec.frontend = some ⟨"app.js", "sha256:missing"⟩
    ∧ c4srrec.frontend = (none : Option FrontendBlock) :=
  ⟨(claim_C4 listHash).1 c4grEntries c4vd c4pd "app.js" c4rec c4lg rfl
      (by decide) rfl rfl,
   (claim_C4 listHash).2 c4srEntries c4vd c4srpd c4srrec c4srlg rfl⟩

/-! Claim C5. -/

/-- Claim C5 input: a release directory with no files at all. -/
def c5vd : VersionDir := mkVDir "2.0.0" []

/-- A `generate-registry.py` manifest for the C5 inputs. -/
def c5pd : GR.Manifest := mkGRManifest "p" none

/-- A `generate-registry.py` tree whose only release is the empty
`c5vd`. -/
def c5grEntries : List (RootEntry GR.Manifest) := [mkGREntry "p" c5pd (some [c5vd])]

/-- The simple-variant manifest for the C5 inputs. -/
def c5srpd : SR.Manifest := mkSRManifest "p" none

/-- The simple-variant tree whose only release is the empty `c5vd`. -/
def c5srEntries : List (RootEntry SR.Manifest) := [mkSREntry "p" c5srpd (some [c5vd])]

/-- Claim C5 counterexample: on a release directory with no expected
binary, both processors drop the version (no record), but
`generate-registry.py` prints nothing at all — its log is empty — while
only the simple variant reports the skip. The claim's "and it
logs/reports this skip" fails for `generate-registry.py`. -/
theorem claim_C5_counterexample :
    GR.process_release listHash c5grEntries c5vd c5pd = .ok (none, [])
    ∧ SR.process_version listHash c5srEntries c5vd c5srpd
        = .ok (none, [LogLine.noBinaries "2.0.0"]) :=
  ⟨rfl, rfl⟩

/-- Claim C5 (corrected, amended): a version directory in which no
expected platform binary exists yields a null result in both variants (so
no VersionRecord appears); the simple variant prints `No binaries found`,
while `generate-registry.py` skips silently without any report. -/
theorem claim_C5 : ∀ {σ : Type} (h : Sha256 σ),
    (∀ (entries : List (RootEntry GR.Manifest)) (vd : VersionDir) (pd : GR.Manifest),
       GR.assetsLoop h pd vd pd.build.platforms [] = .ok [] →
       GR.process_release h entries vd pd = .ok (none, []))
    ∧ (∀ (entries : List (RootEntry SR.Manifest)) (vd : VersionDir) (pd : SR.Manifest),
       SR.assetsLoop h pd.info.id vd SR.srPlatforms [] = [] →
       SR.process_version h entries vd pd = .ok (none, [LogLine.noBinaries vd.name])) := by
  intro σ h
  constructor
  · intro entries vd pd hassets
    rw [GR.process_release, hassets]
    rfl
  · intro entries vd pd hassets
    rw [SR.process_version]
    dsimp only []
    rw [hassets]
    rfl

theorem claim_C5_witness :
    GR.process_release listHash c5grEntries c5vd c5pd = .ok (none, [])
    ∧ SR.process_version listHash c5srEntries c5vd c5srpd
        = .ok (none, [LogLine.noBinaries c5vd.name]) :=
  ⟨(claim_C5 listHash).1 c5grEntries c5vd c5pd rfl,
   (claim_C5 listHash).2 c5srEntries c5vd c5srpd rfl⟩

/-! Claim C6. -/

/-- Claim C6 (confirmed): every plugin whose scan produced at least one
valid version appears under its id in the registry document's plugin map,
as an entry of the discovery list, and among the detail files — and each
detail file holds the full plugin record of the map. (In
`generate-registry.py` this holds for every scanned plugin; in the simple
variant the non-empty `versions` hypothesis is what admits the plugin.) -/
theorem claim_C6 : ∀ {σ : Type} (h : Sha256 σ) (nowR nowA : String),
    (∀ (entries : List (RootEntry GR.Manifest)) (m : List (String × GR.PluginRecord))
       (e : RootEntry GR.Manifest) (b : List Nat) (pd : GR.Manifest)
       (vs : List VersionRecord) (vlgs : List LogLine),
       GR.scan_plugins h entries = .ok m →
       e ∈ entries → e.isDir = true → e.name ≠ ".github" → e.pluginJson = some (b, pd) →
       GR.versionsLoop h entries pd (e.releases.getD []) [] = .ok (vs, vlgs) → vs ≠ [] →
       e.name ∈ (GR.generate_registry nowR m).plugins.map Prod.fst
       ∧ e.name ∈ (GR.generate_api_files nowA m).pluginsJson.plugins.map DiscoveryEntry.id
       ∧ e.name ∈ (GR.generate_api_files nowA m).detailFiles.map Prod.fst
       ∧ (GR.generate_api_files nowA m).detailFiles = m)
    ∧ (∀ (entries : List (RootEntry SR.Manifest)) (m : List (String × SR.PluginRecord))
       (lgs : List LogLine) (e : RootEntry SR.Manifest) (b : List Nat) (pd : SR.Manifest)
       (vs : List VersionRecord) (vlgs : List LogLine),
       SR.scan_plugins h entries = .ok (m, lgs) →
       e ∈ entries → e.isDir = true → pyStartsWith e.name "." = false →
       e.pluginJson = some (b, pd) →
       SR.versionsLoop h entries pd (e.releases.getD []) [] [] = .ok (vs, vlgs) → vs ≠ [] →
       e.name ∈ (SR.generate_registry nowR m).plugins.map Prod.fst
       ∧ e.name ∈ (SR.generate_api_files nowA m).pluginsJson.plugins.map DiscoveryEntry.id
       ∧ e.name ∈ (SR.generate_api_files nowA m).detailFiles.map Prod.fst
       ∧ (SR.generate_api_files nowA m).detailFiles = m) := by
  intro σ h nowR nowA
  constructor
  · intro entries m e b pd vs vlgs hs hm h1 h2 hpj hvl hvs
    have hkey : e.name ∈ m.map Prod.fst :=
      grScanLoop_mem_keys h entries hm h1 h2 (by rw [hpj]; rfl) hs
    refine ⟨hkey, ?_, hkey, rfl⟩
    simp only [GR.generate_api_files, List.map_map]
    exact hkey
  · intro entries m lgs e b pd vs vlgs hs hm h1 h2 hpj hvl hvs
    have hkey : e.name ∈ m.map Prod.fst :=
      srScanLoop_mem_keys h entries hm h1 h2 hpj hvl hvs hs
    refine ⟨hkey, ?_, hkey, rfl⟩
    simp only [SR.generate_api_files, List.map_map]
    exact hkey

/-- Claim C6 witness inputs: one valid plugin per variant. -/
def c6gre : RootEntry GR.Manifest :=
  mkGREntry "g" (mkGRManifest "g" none) (some [mkVDir "1.0.0" [("g-linux-amd64", [0])]])

/-- The `generate-registry.py` tree of the C6 witness. -/
def c6grEntries : List (RootEntry GR.Manifest) := [c6gre]

/-- The plugin map scanned from `c6grEntries`. -/
def c6grm : List (String × GR.PluginRecord) :=
  match GR.scan_plugins listHash c6grEntries with
  | .ok m => m
  | .error _ => []

/-- The version records and logs collected for `c6gre`. -/
def c6gvsPair : List VersionRecord × List LogLine :=
  match GR.versionsLoop listHash c6grEntries (mkGRManifest "g" none) (c6gre.releases.getD []) [] with
  | .ok p => p
  | .error _ => ([], [])

/-- The simple-variant plugin entry of the C6 witness. -/
def c6sre : RootEntry SR.Manifest :=
  mkSREntry "s" (mkSRManifest "s" none) (some [mkVDir "1.0.0" [("s-linux-amd64", [0])]])

/-- The simple-variant tree of the C6 witness. -/
def c6srEntries : List (RootEntry SR.Manifest) := [c6sre]

/-- The plugin map scanned from `c6srEntries`. -/
def c6srm : List (String × SR.PluginRecord) :=
  match SR.scan_plugins listHash c6srEntries with
  | .ok p => p.1
  | .error _ => []

/-- The progress log of the C6 simple-variant scan. -/
def c6srlgs : List LogLine :=
  match SR.scan_plugins listHash c6srEntries with
  | .ok p => p.2
  | .error _ => []

/-- The version records and logs collected for `c6sre`. -/
def c6svsPair : List VersionRecord × List LogLine :=
  match SR.versionsLoop listHash c6srEntries (mkSRManifest "s" none) (c6sre.releases.getD []) [] [] with
  | .ok p => p
  | .error _ => ([], [])

theorem claim_C6_witness :
    ("g" ∈ (GR.generate_registry "T1" c6grm).plugins.map Prod.fst
      ∧ "g" ∈ (GR.generate_api_files "T2" c6grm).pluginsJson.plugins.map DiscoveryEntry.id
      ∧ "g" ∈ (GR.generate_api_files "T2" c6grm).detailFiles.map Prod.fst
      ∧ (GR.generate_api_files "T2" c6grm).detailFiles = c6grm)
    ∧ ("s" ∈ (SR.generate_registry "T1" c6srm).plugins.map Prod.fst
      ∧ "s" ∈ (SR.generate_api_files "T2" c6srm).pluginsJson.plugins.map DiscoveryEntry.id
      ∧ "s" ∈ (SR.generate_api_files "T2" c6srm).detailFiles.map Prod.fst
      ∧ (SR.generate_api_files "T2" c6srm).detailFiles = c6srm) :=
  ⟨(claim_C6 listHash "T1" "T2").1 c6grEntries c6grm c6gre [1] (mkGRManifest "g" none)
      c6gvsPair.1 c6gvsPair.2 rfl (List.mem_singleton.mpr rfl) rfl (by decide) rfl rfl
      (List.cons_ne_nil _ _),
   (claim_C6 listHash "T1" "T2").2 c6srEntries c6srm c6srlgs c6sre [1] (mkSRManifest "s" none)
      c6svsPair.1 c6svsPair.2 rfl (List.mem_singleton.mpr rfl) rfl rfl rfl rfl
      (List.cons_ne_nil _ _)⟩

/-! Claim C7. -/

/-- Claim C7 counterexample input: a hidden directory `.hidden` (not
`.github`) holding a manifest. -/
def c7grEntries : List (RootEntry GR.Manifest) :=
  [mkGREntry ".hidden" (mkGRManifest "hid" none) none]

/-- The same tree for the simple variant. -/
def c7srEntries : List (RootEntry SR.Manifest) :=
  [mkSREntry ".hidden" (mkSRManifest "hid" none) none]

/-- Claim C7 counterexample: `generate-registry.py` excludes only the
literal name `.github`, not hidden directories in general — the hidden
directory `.hidden` with a manifest IS selected (while the simple variant
skips it), refuting the claim that the scanner selects exactly the
non-hidden manifest directories. -/
theorem claim_C7_counterexample :
    (GR.scan_plugins listHash c7grEntries).map (fun m => m.map Prod.fst) = .ok [".hidden"]
    ∧ pyStartsWith ".hidden" "." = true
    ∧ SR.scan_plugins listHash c7srEntries = .ok ([], []) :=
  ⟨rfl, rfl, rfl⟩

/-- Claim C7 (corrected, amended): the selection differs per variant —
`generate-registry.py` processes exactly the directories other than
`.github` that contain a manifest (its plugin-map keys are exactly their
names, given distinct entry names), while the simple variant processes
exactly the non-dot-named manifest directories (witnessed by its
`Processing plugin:` lines); in both, directories lacking a manifest are
silently skipped without error — a tree with no manifests at all scans to
an empty result with no output. -/
theorem claim_C7 : ∀ {σ : Type} (h : Sha256 σ),
    (∀ (entries : List (RootEntry GR.Manifest)) (m : List (String × GR.PluginRecord)),
       (entries.map RootEntry.name).Nodup →
       GR.scan_plugins h entries = .ok m →
       m.map Prod.fst = (entries.filter GR.eligible).map RootEntry.name)
    ∧ (∀ (entries : List (RootEntry SR.Manifest)) (m : List (String × SR.PluginRecord))
       (lgs : List LogLine),
       SR.scan_plugins h entries = .ok (m, lgs) →
       lgs.filterMap processingName = (entries.filter SR.eligible).map RootEntry.name)
    ∧ (∀ (entries : List (RootEntry GR.Manifest)),
       (∀ e ∈ entries, e.pluginJson = none) → GR.scan_plugins h entries = .ok [])
    ∧ (∀ (entries : List (RootEntry SR.Manifest)),
       (∀ e ∈ entries, e.pluginJson = none) → SR.scan_plugins h entries = .ok ([], [])) := by
  intro σ h
  refine ⟨?_, ?_, ?_, ?_⟩
  · intro entries m hnd hs
    simpa using grScanLoop_keys_eq h entries hnd (fun e _ => by simp) hs
  · intro entries m lgs hs
    simpa using srScanLoop_logs h entries hs
  · intro entries hnone
    exact grScanLoop_no_manifest h entries hnone
  · intro entries hnone
    exact srScanLoop_no_manifest h entries hnone

/-- Claim C7 witness input: a normal plugin, a manifest-less directory,
and the control directory `.github`, for `generate-registry.py`. -/
def c7wgrEntries : List (RootEntry GR.Manifest) :=
  [mkGREntry "n" (mkGRManifest "n" none) none,
   { name := "nomanifest", isDir := true, pluginJson := none, releases := none },
   mkGREntry ".github" (mkGRManifest "x" none) none]

/-- The plugin map scanned from `c7wgrEntries`. -/
def c7wgrm : List (String × GR.PluginRecord) :=
  match GR.scan_plugins listHash c7wgrEntries with
  | .ok m => m
  | .error _ => []

/-- Claim C7 witness input for the simple variant: a normal plugin, a
manifest-less directory, and a hidden directory. -/
def c7wsrEntries : List (RootEntry SR.Manifest) :=
  [mkSREntry "n" (mkSRManifest "n" none) none,
   { name := "nomanifest", isDir := true, pluginJson := none, releases := none },
   mkSREntry ".hidden" (mkSRManifest "x" none) none]

/-- The progress log of the C7 simple-variant scan. -/
def c7wsrlgs : List LogLine :=
  match SR.scan_plugins listHash c7wsrEntries with
  | .ok p => p.2
  | .error _ => []

/-- A manifest-less `generate-registry.py` tree. -/
def c7wnmgrEntries : List (RootEntry GR.Manifest) :=
  [{ name := "z", isDir := true, pluginJson := none, releases := none }]

/-- A manifest-less simple-variant tree. -/
def c7wnmsrEntries : List (RootEntry SR.Manifest) :=
  [{ name := "z", isDir := true, pluginJson := none, releases := none }]

theorem claim_C7_witness :
    c7wgrm.map Prod.fst = (c7wgrEntries.filter GR.eligible).map RootEntry.name
    ∧ c7wsrlgs.filterMap processingName = (c7wsrEntries.filter SR.eligible).map RootEntry.name
    ∧ GR.scan_plugins listHash c7wnmgrEntries = .ok []
    ∧ SR.scan_plugins listHash c7wnmsrEntries = .ok ([], []) :=
  ⟨(claim_C7 listHash).1 c7wgrEntries c7wgrm (by decide) rfl,
   (claim_C7 listHash).2.1 c7wsrEntries
     (match SR.scan_plugins listHash c7wsrEntries with
      | .ok p => p.1
      | .error _ => []) c7wsrlgs rfl,
   (claim_C7 listHash).2.2.1 c7wnmgrEntries (by decide),
   (claim_C7 listHash).2.2.2 c7wnmsrEntries (by decide)⟩

/-! Claim C8. -/

/-- Claim C8 (confirmed): in the assembled registry document,
`stats.total_plugins` is the number of entries of the plugin map,
`stats.total_versions` is the sum of the lengths of the `versions` lists,
and `stats.most_popular` is the list of all plugin ids, in both
variants. -/
theorem claim_C8 : ∀ (now : String),
    (∀ (plugins : List (String × GR.PluginRecord)),
       (GR.generate_registry now plugins).stats.total_plugins
           = (GR.generate_registry now plugins).plugins.length
       ∧ (GR.generate_registry now plugins).stats.total_versions
           = ((GR.generate_registry now plugins).plugins.map (fun p => p.2.versions.length)).sum
       ∧ (GR.generate_registry now plugins).stats.most_popular
           = (GR.generate_registry now plugins).plugins.map Prod.fst)
    ∧ (∀ (plugins : List (String × SR.PluginRecord)),
       (SR.generate_registry now plugins).stats.total_plugins
           = (SR.generate_registry now plugins).plugins.length
       ∧ (SR.generate_registry now plugins).stats.total_versions
           = ((SR.generate_registry now plugins).plugins.map (fun p => p.2.versions.length)).sum
       ∧ (SR.generate_registry now plugins).stats.most_popular
           = (SR.generate_registry now plugins).plugins.map Prod.fst) :=
  fun _ => ⟨fun _ => ⟨rfl, rfl, rfl⟩, fun _ => ⟨rfl, rfl, rfl⟩⟩

/-! Claim C9. -/

/-- Claim C9 (confirmed): the checksum computation is a pure function of
the input bytes (computing it twice yields the same string), and two runs
of either pipeline over the same input tree at different wall-clock times
agree on everything except the `last_updated` timestamps — in particular
all `assets` and `plugin_metadata` checksum fields, which live inside the
plugin records, coincide. -/
theorem claim_C9 : ∀ {σ : Type} (h : Sha256 σ),
    (∀ (bytes : List Nat), calculate_checksum h bytes = calculate_checksum h bytes)
    ∧ (∀ (entries : List (RootEntry GR.Manifest)) (t1 t2 t3 t4 : String)
       (r1 r2 : PipelineOut GR.PluginRecord),
       GR.runPipeline h entries t1 t2 = .ok r1 →
       GR.runPipeline h entries t3 t4 = .ok r2 →
       r1.registryYml.plugins = r2.registryYml.plugins
       ∧ r1.registryYml.stats = r2.registryYml.stats
       ∧ r1.api.pluginsJson.plugins = r2.api.pluginsJson.plugins
       ∧ r1.api.detailFiles = r2.api.detailFiles)
    ∧ (∀ (entries : List (RootEntry SR.Manifest)) (t1 t2 t3 t4 : String)
       (r1 r2 : PipelineOut SR.PluginRecord),
       SR.runPipeline h entries t1 t2 = .ok (some r1) →
       SR.runPipeline h entries t3 t4 = .ok (some r2) →
       r1.registryYml.plugins = r2.registryYml.plugins
       ∧ r1.registryYml.stats = r2.registryYml.stats
       ∧ r1.api.pluginsJson.plugins = r2.api.pluginsJson.plugins
       ∧ r1.api.detailFiles = r2.api.detailFiles) := by
  intro σ h
  refine ⟨fun _ => rfl, ?_, ?_⟩
  · intro entries t1 t2 t3 t4 r1 r2 h1 h2
    rw [GR.runPipeline] at h1
    rw [GR.runPipeline] at h2
    split at h1
    · exact Except.noConfusion h1
    · rename_i plugins1 heq1
      split at h2
      · exact Except.noConfusion h2
      · rename_i plugins2 heq2
        rw [heq1] at heq2
        cases heq2
        cases h1
        cases h2
        exact ⟨rfl, rfl, rfl, rfl⟩
  · intro entries t1 t2 t3 t4 r1 r2 h1 h2
    rw [SR.runPipeline] at h1
    rw [SR.runPipeline] at h2
    split at h1
    · exact Except.noConfusion h1
    · rename_i plugins1 lgs1 heq1
      split at h2
      · exact Except.noConfusion h2
      · rename_i plugins2 lgs2 heq2
        rw [heq1] at heq2
        cases heq2
        split at h1
        · cases h1
        · split at h2
          · rename_i hfalse htrue
            exact absurd htrue hfalse
          · cases h1
            cases h2
            exact ⟨rfl, rfl, rfl, rfl⟩

/-- Claim C9 witness input: one valid plugin per variant. -/
def c9grEntries : List (RootEntry GR.Manifest) :=
  [mkGREntry "r" (mkGRManifest "r" none) (some [mkVDir "1.0.0" [("r-linux-amd64", [0])]])]

/-- The plugin map scanned from `c9grEntries`. -/
def c9grm : List (String × GR.PluginRecord) :=
  match GR.scan_plugins listHash c9grEntries with
  | .ok m => m
  | .error _ => []

/-- The simple-variant tree of the C9 witness. -/
def c9srEntries : List (RootEntry SR.Manifest) :=
  [mkSREntry "r" (mkSRManifest "r" none) (some [mkVDir "1.0.0" [("r-linux-amd64", [0])]])]

/-- The plugin map scanned from `c9srEntries`. -/
def c9srm : List (String × SR.PluginRecord) :=
  match SR.scan_plugins listHash c9srEntries with
  | .ok p => p.1
  | .error _ => []

theorem claim_C9_witness :
    calculate_checksum listHash [5] = calculate_checksum listHash [5]
    ∧ ((GR.generate_registry "T1" c9grm).plugins = (GR.generate_registry "T3" c9grm).plugins
      ∧ (GR.generate_registry "T1" c9grm).stats = (GR.generate_registry "T3" c9grm).stats
      ∧ (GR.generate_api_files "T2" c9grm).pluginsJson.plugins
          = (GR.generate_api_files "T4" c9grm).pluginsJson.plugins
      ∧ (GR.generate_api_files "T2" c9grm).detailFiles
          = (GR.generate_api_files "T4" c9grm).detailFiles)
    ∧ ((SR.generate_registry "T1" c9srm).plugins = (SR.generate_registry "T3" c9srm).plugins
      ∧ (SR.generate_registry "T1" c9srm).stats = (SR.generate_registry "T3" c9srm).stats
      ∧ (SR.generate_api_files "T2" c9srm).pluginsJson.plugins
          = (SR.generate_api_files "T4" c9srm).pluginsJson.plugins
      ∧ (SR.generate_api_files "T2" c9srm).detailFiles
          = (SR.generate_api_files "T4" c9srm).detailFiles) :=
  ⟨(claim_C9 listHash).1 [5],
   (claim_C9 listHash).2.1 c9grEntries "T1" "T2" "T3" "T4"
     { registryYml := GR.generate_registry "T1" c9grm, api := GR.generate_api_files "T2" c9grm }
     { registryYml := GR.generate_registry "T3" c9grm, api := GR.generate_api_files "T4" c9grm }
     rfl rfl,
   (claim_C9 listHash).2.2 c9srEntries "T1" "T2" "T3" "T4"
     { registryYml := SR.generate_registry "T1" c9srm, api := SR.generate_api_files "T2" c9srm }
     { registryYml := SR.generate_registry "T3" c9srm, api := SR.generate_api_files "T4" c9srm }
     rfl rfl⟩

/-! Claim C10. -/

/-- Claim C10 (confirmed): every entry of the emitted discovery list comes
from a plugin of the map, and its `latest_version` is exactly the version
string of the first element of that plugin's `versions` sequence when it
is non-empty, and `none` (JSON null) when it is empty — in both
variants. -/
theorem claim_C10 : ∀ (now : String),
    (∀ (plugins : List (String × GR.PluginRecord)) (ent : DiscoveryEntry),
       ent ∈ (GR.generate_api_files now plugins).pluginsJson.plugins →
       ∃ p ∈ plugins, ent.id = p.1
         ∧ ent.latest_version = p.2.versions.head?.map VersionRecord.version)
    ∧ (∀ (plugins : List (String × SR.PluginRecord)) (ent : DiscoveryEntry),
       ent ∈ (SR.generate_api_files now plugins).pluginsJson.plugins →
       ∃ p ∈ plugins, ent.id = p.1
         ∧ ent.latest_version = p.2.versions.head?.map VersionRecord.version) := by
  intro now
  constructor
  · intro plugins ent hent
    rcases List.mem_map.mp hent with ⟨p, hp, hpe⟩
    subst hpe
    refine ⟨p, hp, rfl, ?_⟩
    cases p.2.versions with
    | nil => rfl
    | cons v rest => rfl
  · intro plugins ent hent
    rcases List.mem_map.mp hent with ⟨p, hp, hpe⟩
    subst hpe
    refine ⟨p, hp, rfl, ?_⟩
    cases p.2.versions with
    | nil => rfl
    | cons v rest => rfl

/-- Claim C10 witness input: a `generate-registry.py` plugin map with an
empty `versions` list (so `latest_version` is null), and a simple-variant
map with one version. -/
def c10grPlugins : List (String × GR.PluginRecord) :=
  [("x", { name := "X", description := "d", author := "a", license := "MIT"
           repository := none, homepage := none, tags := [], category := "utilities"
           min_delve_version := "v0.1.0", versions := [] })]

/-- The discovery entry emitted for `c10grPlugins`. -/
def c10ent : DiscoveryEntry :=
  match (GR.generate_api_files "T" c10grPlugins).pluginsJson.plugins with
  | e :: _ => e
  | [] => { id := "", name := "", description := "", author := "", category := ""
            tags := [], latest_version := none, min_delve_version := "" }

/-- A simple-variant plugin map with one version `1.0.0`. -/
def c10srPlugins : List (String × SR.PluginRecord) :=
  [("y", { name := "Y", description := "d", author := "a", license := "MIT"
           repository := "", homepage := "", tags := [], category := "utilities"
           min_delve_version := "v0.1.0"
           versions := [{ version := "1.0.0", released := "0Z", compatibility := []
                          assets := [], frontend := none
                          plugin_metadata := { url := "", checksum := "" } }] })]

/-- The discovery entry emitted for `c10srPlugins`. -/
def c10srent : DiscoveryEntry :=
  match (SR.generate_api_files "T" c10srPlugins).pluginsJson.plugins with
  | e :: _ => e
  | [] => { id := "", name := "", description := "", author := "", category := ""
            tags := [], latest_version := none, min_delve_version := "" }

theorem claim_C10_witness :
    c10ent.latest_version = none ∧ c10srent.latest_version = some "1.0.0" := by
  constructor
  · obtain ⟨p, hp, _, hlv⟩ :=
      (claim_C10 "T").1 c10grPlugins c10ent (List.mem_singleton.mpr rfl)
    rw [hlv, List.mem_singleton.mp hp]
    rfl
  · obtain ⟨p, hp, _, hlv⟩ :=
      (claim_C10 "T").2 c10srPlugins c10srent (List.mem_singleton.mpr rfl)
    rw [hlv, List.mem_singleton.mp hp]
    rfl

end DelveRegistry
